import Mathlib

/-!
Verification of the REX (Return of Experience) association and submission
logic of `src/taqathon-front/src/components/maintenance/RexIntegration.tsx`.

Strings are modelled as Lean `String`; JavaScript's
`String.prototype.includes(sub)` is modelled as `jsIncludes`, i.e. `sub`
being a contiguous infix of the receiver's character list (this matches the
ECMAScript semantics, in particular `"".includes("") === true`).
Timestamps (`Date.now()`, `new Date()`) are modelled as natural numbers
(milliseconds since the epoch), compared with the usual order; the template
literal `` `rex_${Date.now()}` `` becomes `"rex_" ++ toString t`.
Optional fields (`window.id`, `window.anomalies`, the `onRexCreated`
callback) are modelled with `Option` / a `Bool` presence flag.
-/

namespace RexIntegration

/-- JS `s.includes(sub)`: `sub` occurs contiguously inside `s`. -/
def jsIncludes (s sub : String) : Bool :=
  decide (sub.data <:+: s.data)

/-- An anomaly tracked against a maintenance window; only its `status`
field is consulted by this component. -/
structure Anomaly where
  status : String
  deriving DecidableEq, Repr

/-- The `MaintenanceWindow` entity, restricted to the fields this component
reads. `id` and `anomalies` are optional in the TypeScript type. -/
structure MaintenanceWindow where
  id : Option String
  title : String
  scheduleStart : Nat
  scheduleEnd : Nat
  status : String
  anomalies : Option (List Anomaly)
  deriving DecidableEq, Repr

/-- A `ReturnOfExperience` record as constructed by the component.
`attachments` are opaque references (modelled as strings). -/
structure ReturnOfExperience where
  id : String
  summary : String
  rootCause : String
  correctionAction : String
  preventiveAction : String
  lessonsLearned : String
  recommendations : String
  attachments : List String
  createdBy : String
  createdAt : Nat
  deriving DecidableEq, Repr

/-- The predicate of the `rexRecords.filter` call (lines 428-432):
`rex.summary.includes(maintenanceWindow.title) ||
 rex.id.includes(maintenanceWindow.id || "")`. -/
def recordMatchesWindow (w : MaintenanceWindow) (rex : ReturnOfExperience) : Bool :=
  jsIncludes rex.summary w.title || jsIncludes rex.id (w.id.getD "")

/-- `windowRexRecords` (lines 428-432): the records associated to a window
by the substring heuristic. -/
def filterByWindow (records : List ReturnOfExperience) (w : MaintenanceWindow) :
    List ReturnOfExperience :=
  records.filter (recordMatchesWindow w)

theorem jsIncludes_iff (s sub : String) :
    jsIncludes s sub = true ↔ sub.data <:+: s.data := by
  simp [jsIncludes]

theorem recordMatchesWindow_iff (w : MaintenanceWindow) (rex : ReturnOfExperience) :
    recordMatchesWindow w rex = true ↔
      (w.title.data <:+: rex.summary.data ∨ (w.id.getD "").data <:+: rex.id.data) := by
  simp [recordMatchesWindow, jsIncludes_iff]

/-- **C1.** A record of the input list is kept by `filterByWindow` iff the
window's title is a substring of the record's summary, or the record's id
contains the window's id (the empty string standing in for an absent id);
and when the window's id is absent, every input record with a non-empty id
is kept. -/
theorem filterByWindow_mem_iff (records : List ReturnOfExperience)
    (w : MaintenanceWindow) :
    (∀ rex ∈ records,
        (rex ∈ filterByWindow records w ↔
          (w.title.data <:+: rex.summary.data ∨ (w.id.getD "").data <:+: rex.id.data)))
    ∧ (w.id = none → ∀ rex ∈ records, rex.id ≠ "" → rex ∈ filterByWindow records w) := by
  constructor
  · intro rex hmem
    rw [filterByWindow, List.mem_filter]
    rw [recordMatchesWindow_iff]
    exact ⟨fun h => h.2, fun h => ⟨hmem, h⟩⟩
  · intro hid rex hmem _
    rw [filterByWindow, List.mem_filter, recordMatchesWindow_iff]
    refine ⟨hmem, Or.inr ?_⟩
    rw [hid]
    exact List.nil_infix

/-- Concrete instantiation of `filterByWindow_mem_iff`: a window titled
`"Turbine overhaul"` with id `"mw1"` matches a record whose summary mentions
the title, and (id-absent case) a window with no id matches any record with
a non-empty id. -/
theorem filterByWindow_mem_iff_witness :
    (let w : MaintenanceWindow :=
      { id := some "mw1", title := "Turbine overhaul", scheduleStart := 0,
        scheduleEnd := 10, status := "completed", anomalies := none }
     let rex : ReturnOfExperience :=
      { id := "rex_77", summary := "Lessons from Turbine overhaul week",
        rootCause := "wear", correctionAction := "", preventiveAction := "",
        lessonsLearned := "", recommendations := "", attachments := [],
        createdBy := "Current User", createdAt := 77 }
     rex ∈ filterByWindow [rex] w)
    ∧ (let w0 : MaintenanceWindow :=
        { id := none, title := "zzz", scheduleStart := 0, scheduleEnd := 10,
          status := "open", anomalies := none }
       let rex0 : ReturnOfExperience :=
        { id := "rex_1", summary := "unrelated", rootCause := "r",
          correctionAction := "", preventiveAction := "", lessonsLearned := "",
          recommendations := "", attachments := [], createdBy := "Current User",
          createdAt := 1 }
       rex0 ∈ filterByWindow [rex0] w0) := by
  constructor
  · exact ((filterByWindow_mem_iff _ _).1 _ (by decide)).2 (by decide)
  · exact (filterByWindow_mem_iff _ _).2 rfl _ (by decide) (by decide)

/-- `resolvedAnomalies` (lines 90-93):
`maintenanceWindow.anomalies?.filter(a => a.status === "CLOSED" || a.status === "TREATED") || []`.
When `anomalies` is present the filter result is an array, which is truthy
in JS even when empty, so `|| []` only applies when `anomalies` is absent. -/
def resolvedAnomalies (w : MaintenanceWindow) : List Anomaly :=
  (w.anomalies.map
    (List.filter fun a => a.status == "CLOSED" || a.status == "TREATED")).getD []

/-- The count displayed as "Anomalies Resolved" (line 192). -/
def resolvedAnomalyCount (w : MaintenanceWindow) : Nat :=
  (resolvedAnomalies w).length

/-- `isCompleted && hasSignificantAnomalies` of `RexOpportunityBanner`
(lines 385-394): the banner renders iff
`(status === "completed" || scheduleEnd < now) && anomalies && anomalies.length > 0`. -/
def isOpportunity (w : MaintenanceWindow) (currentTime : Nat) : Bool :=
  (w.status == "completed" || decide (w.scheduleEnd < currentTime)) &&
    (match w.anomalies with
     | some l => decide (0 < l.length)
     | none => false)

/-- `lastRexDate` (lines 434-437):
`windowRexRecords.length > 0 ? windowRexRecords[windowRexRecords.length - 1].createdAt : undefined`. -/
def lastRecordTimestamp (matchingRecords : List ReturnOfExperience) : Option Nat :=
  if h : 0 < matchingRecords.length then
    some (matchingRecords.get ⟨matchingRecords.length - 1, by omega⟩).createdAt
  else none

/-- The local REX record store (line 426): initialised to the empty list
and, since no setter is destructured from `useState`, never written to. -/
def rexRecordsInit : List ReturnOfExperience := []

/-- **C6.** `resolvedAnomalyCount` counts exactly the anomalies whose
status is `"CLOSED"` or `"TREATED"`, and is `0` when `anomalies` is
absent. -/
theorem resolvedAnomalyCount_spec (w : MaintenanceWindow) :
    resolvedAnomalyCount w =
      (w.anomalies.getD []).countP
        (fun a => decide (a.status = "CLOSED" ∨ a.status = "TREATED"))
    ∧ (w.anomalies = none → resolvedAnomalyCount w = 0) := by
  constructor
  · cases h : w.anomalies with
    | none => simp [resolvedAnomalyCount, resolvedAnomalies, h]
    | some l =>
      simp [resolvedAnomalyCount, resolvedAnomalies, h]
      rw [← List.countP_eq_length_filter]
      apply List.countP_congr
      intro a _
      simp [decide_eq_true_iff]
  · intro h
    simp [resolvedAnomalyCount, resolvedAnomalies, h]

/-- The spec's concrete example: anomalies `CLOSED`, `OPEN`, `TREATED`
yield a resolved count of `2`; and a window without anomalies yields `0`. -/
theorem resolvedAnomalyCount_spec_witness :
    resolvedAnomalyCount
      { id := none, title := "W", scheduleStart := 0, scheduleEnd := 1,
        status := "completed",
        anomalies := some [⟨"CLOSED"⟩, ⟨"OPEN"⟩, ⟨"TREATED"⟩] } = 2
    ∧ resolvedAnomalyCount
      { id := none, title := "W", scheduleStart := 0, scheduleEnd := 1,
        status := "completed", anomalies := none } = 0 :=
  ⟨(resolvedAnomalyCount_spec _).1.trans (by decide),
   (resolvedAnomalyCount_spec _).2 rfl⟩

/-- **C3.** The opportunity banner condition holds iff the window is
completed (by status, or by its scheduled end lying strictly before the
current time) and its anomaly list is present and non-empty; in
particular it is false whenever `anomalies` is absent or empty. -/
theorem isOpportunity_iff (w : MaintenanceWindow) (t : Nat) :
    (isOpportunity w t = true ↔
      ((w.status = "completed" ∨ w.scheduleEnd < t) ∧
        ∃ l, w.anomalies = some l ∧ l ≠ []))
    ∧ ((w.anomalies = none ∨ w.anomalies = some []) → isOpportunity w t = false) := by
  constructor
  · cases h : w.anomalies with
    | none => simp [isOpportunity, h]
    | some l =>
      constructor
      · intro hop
        simp only [isOpportunity, h, Bool.and_eq_true, Bool.or_eq_true, beq_iff_eq,
          decide_eq_true_iff] at hop
        exact ⟨hop.1, l, rfl, List.length_pos.mp hop.2⟩
      · rintro ⟨hc, l', hl', hne⟩
        have hll : l' = l := (Option.some.inj hl').symm
        simp only [isOpportunity, h, Bool.and_eq_true, Bool.or_eq_true, beq_iff_eq,
          decide_eq_true_iff]
        exact ⟨hc, List.length_pos.mpr (hll ▸ hne)⟩
  · rintro (h | h) <;> simp [isOpportunity, h]

/-- Concrete instantiation of `isOpportunity_iff`: a completed window with
one anomaly is an opportunity; the same window with no anomaly list is
not. -/
theorem isOpportunity_iff_witness :
    isOpportunity
      { id := none, title := "W", scheduleStart := 0, scheduleEnd := 100,
        status := "completed", anomalies := some [⟨"OPEN"⟩] } 5 = true
    ∧ isOpportunity
      { id := none, title := "W", scheduleStart := 0, scheduleEnd := 100,
        status := "completed", anomalies := none } 5 = false :=
  ⟨(isOpportunity_iff _ 5).1.mpr ⟨Or.inl rfl, [⟨"OPEN"⟩], rfl, by decide⟩,
   (isOpportunity_iff _ 5).2 (Or.inl rfl)⟩

/-- **C7.** `filterByWindow` returns an order-preserving subsequence of its
input (`List.Sublist` is exactly "subsequence in the original relative
order"). The embedding is purely functional, so neither the record list
nor the window value is mutated. -/
theorem filterByWindow_sublist (records : List ReturnOfExperience)
    (w : MaintenanceWindow) :
    (filterByWindow records w).Sublist records :=
  List.filter_sublist records

/-- **C8.** `lastRecordTimestamp` yields the `createdAt` of the last
element by input ordering on a non-empty list, and `none` on the empty
list; it inspects only the final position, performing no sorting. -/
theorem lastRecordTimestamp_spec :
    lastRecordTimestamp [] = none
    ∧ ∀ (l : List ReturnOfExperience) (h : l ≠ []),
        lastRecordTimestamp l = some (l.getLast h).createdAt := by
  refine ⟨rfl, fun l h => ?_⟩
  have hlen : 0 < l.length := List.length_pos.mpr h
  simp only [lastRecordTimestamp, dif_pos hlen]
  rw [List.getLast_eq_getElem]
  rfl

/-- Concrete instantiation of `lastRecordTimestamp_spec`: on a two-element
list the timestamp of the second record is returned. -/
theorem lastRecordTimestamp_spec_witness :
    (let r1 : ReturnOfExperience :=
      { id := "rex_1", summary := "a", rootCause := "b", correctionAction := "",
        preventiveAction := "", lessonsLearned := "", recommendations := "",
        attachments := [], createdBy := "Current User", createdAt := 1 }
     let r2 : ReturnOfExperience :=
      { id := "rex_2", summary := "c", rootCause := "d", correctionAction := "",
        preventiveAction := "", lessonsLearned := "", recommendations := "",
        attachments := [], createdBy := "Current User", createdAt := 2 }
     lastRecordTimestamp [r1, r2] = some 2) :=
  (lastRecordTimestamp_spec.2 _ (by decide)).trans rfl

/-- **C10.** The component's REX store starts empty and is never extended
(no `useState` setter is destructured, and a successful submission only
invokes the external callback), so for every window the summary card's
record count is `0` and the last-record timestamp is absent. -/
theorem rexRecords_always_empty (w : MaintenanceWindow) :
    filterByWindow rexRecordsInit w = []
    ∧ (filterByWindow rexRecordsInit w).length = 0
    ∧ lastRecordTimestamp (filterByWindow rexRecordsInit w) = none :=
  ⟨rfl, rfl, rfl⟩

inductive Impact where
  | low
  | medium
  | high
  | critical
  deriving DecidableEq, Repr

inductive RexCategory where
  | technical
  | procedural
  | organizational
  | safety
  | quality
  deriving DecidableEq, Repr

/-- The `QuickRexFormData` state of the dialog (lines 52-66, 79-88). -/
structure QuickRexFormData where
  summary : String
  rootCause : String
  correctionAction : String
  preventiveAction : String
  lessonsLearned : String
  recommendations : String
  impact : Impact
  category : RexCategory
  deriving DecidableEq, Repr

/-- The initial / reset form value (lines 79-88 and 122-131). -/
def emptyForm : QuickRexFormData :=
  { summary := "", rootCause := "", correctionAction := "",
    preventiveAction := "", lessonsLearned := "", recommendations := "",
    impact := Impact.medium, category := RexCategory.technical }

inductive ValidationError where
  | missingMandatoryFields
  deriving DecidableEq, Repr

/-- The record-construction part of `handleSubmit` (lines 95-114): the
guard `!formData.summary || !formData.rootCause` (JS falsiness on strings
is exactly equality with `""`) followed by the object literal building the
new `ReturnOfExperience` with `id = "rex_" + Date.now()`,
`attachments = []`, `createdBy = "Current User"` (hard-coded) and
`createdAt = new Date()`; both clock reads are modelled by `currentTime`. -/
def buildRecord (f : QuickRexFormData) (currentTime : Nat) :
    Except ValidationError ReturnOfExperience :=
  if f.summary = "" ∨ f.rootCause = "" then
    Except.error ValidationError.missingMandatoryFields
  else
    Except.ok
      { id := "rex_" ++ toString currentTime, summary := f.summary,
        rootCause := f.rootCause, correctionAction := f.correctionAction,
        preventiveAction := f.preventiveAction,
        lessonsLearned := f.lessonsLearned,
        recommendations := f.recommendations, attachments := [],
        createdBy := "Current User", createdAt := currentTime }

/-- The component state owned by `QuickRexDialog` (lines 75-88). -/
structure DialogState where
  isOpen : Bool
  isSubmitting : Bool
  formData : QuickRexFormData
  deriving DecidableEq, Repr

/-- Observable effects of one `handleSubmit` run, in program order. -/
inductive SubmitEvent where
  | toastError (msg : String)
  | rexCreated (rex : ReturnOfExperience)
  | toastSuccess (msg : String)
  | dialogClosed
  deriving DecidableEq, Repr

def isRexCreatedEvent : SubmitEvent → Bool
  | SubmitEvent.rexCreated _ => true
  | _ => false

/-- `handleSubmit` (lines 95-137) as a transition on the dialog state,
returning the new state and the ordered trace of observable effects.
On validation failure the function returns before any state update.
On success it invokes the callback when one is provided (`onRexCreated?.`),
shows the success toast, closes the dialog, resets the form, and the
`finally` clause leaves `isSubmitting` false. -/
def handleSubmit (callbackProvided : Bool) (s : DialogState) (currentTime : Nat) :
    DialogState × List SubmitEvent :=
  match buildRecord s.formData currentTime with
  | Except.error _ =>
    (s, [SubmitEvent.toastError "Please fill in the summary and root cause analysis"])
  | Except.ok newRex =>
    ({ isOpen := false, isSubmitting := false, formData := emptyForm },
      (if callbackProvided then [SubmitEvent.rexCreated newRex] else []) ++
        [SubmitEvent.toastSuccess "REX created successfully!",
         SubmitEvent.dialogClosed])

/-- **C2 (amended).** `buildRecord` fails with a `ValidationError` exactly
when `summary` or `rootCause` is the empty string; the JS falsiness check
does not reject whitespace-only values. In particular it fails for
`summary = ""`, `rootCause = "X"` and for `rootCause = ""`,
`summary = "X"`. -/
theorem buildRecord_validation_iff (f : QuickRexFormData) (t : Nat) :
    buildRecord f t = Except.error ValidationError.missingMandatoryFields ↔
      (f.summary = "" ∨ f.rootCause = "") := by
  by_cases h : f.summary = "" ∨ f.rootCause = ""
  · simp [buildRecord, h]
  · simp [buildRecord, h]

/-- **C2 counterexample.** The claim "fails whenever summary is
whitespace-only" is false: a summary consisting of a single space passes
the falsiness check and the record is built. -/
theorem buildRecord_whitespace_accepted :
    buildRecord
      { summary := " ", rootCause := "X", correctionAction := "",
        preventiveAction := "", lessonsLearned := "", recommendations := "",
        impact := Impact.medium, category := RexCategory.technical } 0 =
      Except.ok
        { id := "rex_0", summary := " ", rootCause := "X",
          correctionAction := "", preventiveAction := "",
          lessonsLearned := "", recommendations := "", attachments := [],
          createdBy := "Current User", createdAt := 0 } := by
  rfl

/-- **C4 (amended).** When `summary` and `rootCause` are non-empty,
`buildRecord` succeeds with `attachments = []`, `createdAt = currentTime`,
an id that is `"rex_"` followed by the decimal rendering of `currentTime`,
and `createdBy` equal to the hard-coded placeholder `"Current User"`. -/
theorem buildRecord_success_spec (f : QuickRexFormData) (t : Nat)
    (h1 : f.summary ≠ "") (h2 : f.rootCause ≠ "") :
    ∃ rex, buildRecord f t = Except.ok rex
      ∧ rex.attachments = []
      ∧ rex.createdAt = t
      ∧ rex.id = "rex_" ++ toString t
      ∧ rex.createdBy = "Current User" := by
  have hok : buildRecord f t = Except.ok
      { id := "rex_" ++ toString t, summary := f.summary,
        rootCause := f.rootCause, correctionAction := f.correctionAction,
        preventiveAction := f.preventiveAction,
        lessonsLearned := f.lessonsLearned,
        recommendations := f.recommendations, attachments := [],
        createdBy := "Current User", createdAt := t } := by
    simp only [buildRecord, if_neg (by tauto : ¬(f.summary = "" ∨ f.rootCause = ""))]
  exact ⟨_, hok, rfl, rfl, rfl, rfl⟩

/-- Concrete instantiation of `buildRecord_success_spec` at time `42`. -/
theorem buildRecord_success_spec_witness :
    ∃ rex,
      buildRecord
        { summary := "S", rootCause := "R", correctionAction := "",
          preventiveAction := "", lessonsLearned := "", recommendations := "",
          impact := Impact.medium, category := RexCategory.technical } 42 =
        Except.ok rex
      ∧ rex.attachments = []
      ∧ rex.createdAt = 42
      ∧ rex.id = "rex_" ++ toString 42
      ∧ rex.createdBy = "Current User" :=
  buildRecord_success_spec _ 42 (by decide) (by decide)

/-- **C4 counterexample.** The claim that `createdBy` equals a
caller-supplied current-user identifier is false: the code hard-codes
`"Current User"`, so no caller-supplied identifier other than that literal
is ever stored. -/
theorem buildRecord_createdBy_not_caller :
    ¬ ∀ (currentUser : String) (rex : ReturnOfExperience),
        buildRecord
          { summary := "S", rootCause := "R", correctionAction := "",
            preventiveAction := "", lessonsLearned := "",
            recommendations := "", impact := Impact.medium,
            category := RexCategory.technical } 5 = Except.ok rex →
          rex.createdBy = currentUser := by
  intro h
  have hc := h "Operator A" _ rfl
  exact absurd hc (by decide)

/-- **C5.** A validation-blocked submission is atomic: the dialog state
(including `isOpen` and the form contents) is returned unchanged, and the
trace contains no `rexCreated` event, whether or not a callback was
provided. -/
theorem handleSubmit_validation_atomic (cb : Bool) (s : DialogState) (t : Nat)
    (h : s.formData.summary = "" ∨ s.formData.rootCause = "") :
    (handleSubmit cb s t).1 = s
    ∧ ∀ e ∈ (handleSubmit cb s t).2, ∀ rex, e ≠ SubmitEvent.rexCreated rex := by
  have herr : buildRecord s.formData t =
      Except.error ValidationError.missingMandatoryFields :=
    (buildRecord_validation_iff s.formData t).mpr h
  constructor
  · simp [handleSubmit, herr]
  · intro e he rex
    simp [handleSubmit, herr] at he
    simp [he]

/-- Concrete instantiation of `handleSubmit_validation_atomic`: submitting
an open dialog whose summary is empty leaves the state untouched. -/
theorem handleSubmit_validation_atomic_witness :
    (let s : DialogState :=
      { isOpen := true, isSubmitting := false,
        formData :=
          { summary := "", rootCause := "cause", correctionAction := "",
            preventiveAction := "", lessonsLearned := "",
            recommendations := "", impact := Impact.medium,
            category := RexCategory.technical } }
     (handleSubmit true s 9).1 = s
       ∧ ∀ e ∈ (handleSubmit true s 9).2, ∀ rex,
           e ≠ SubmitEvent.rexCreated rex) :=
  handleSubmit_validation_atomic true _ 9 (Or.inl rfl)

/-- **C9.** With a callback provided, a valid submission produces a trace
holding exactly one `rexCreated` event; it carries the newly built record
and occurs at an earlier position than the `dialogClosed` event. On a
validation-blocked submission no `rexCreated` event is ever emitted. -/
theorem handleSubmit_callback_once (s : DialogState) (t : Nat) :
    ((s.formData.summary ≠ "" ∧ s.formData.rootCause ≠ "") →
      ∃ rex, buildRecord s.formData t = Except.ok rex
        ∧ (handleSubmit true s t).2.countP isRexCreatedEvent = 1
        ∧ ∃ i j : Nat, i < j
            ∧ (handleSubmit true s t).2[i]? = some (SubmitEvent.rexCreated rex)
            ∧ (handleSubmit true s t).2[j]? = some SubmitEvent.dialogClosed)
    ∧ ((s.formData.summary = "" ∨ s.formData.rootCause = "") →
        ∀ e ∈ (handleSubmit true s t).2, ∀ rex,
          e ≠ SubmitEvent.rexCreated rex) := by
  constructor
  · rintro ⟨h1, h2⟩
    have hok : buildRecord s.formData t = Except.ok
        { id := "rex_" ++ toString t, summary := s.formData.summary,
          rootCause := s.formData.rootCause,
          correctionAction := s.formData.correctionAction,
          preventiveAction := s.formData.preventiveAction,
          lessonsLearned := s.formData.lessonsLearned,
          recommendations := s.formData.recommendations, attachments := [],
          createdBy := "Current User", createdAt := t } := by
      simp only [buildRecord,
        if_neg (by tauto : ¬(s.formData.summary = "" ∨ s.formData.rootCause = ""))]
    refine ⟨_, hok, ?_, 0, 2, by omega, ?_, ?_⟩
    · simp [handleSubmit, hok, List.countP, List.countP.go, isRexCreatedEvent]
    · simp [handleSubmit, hok]
    · simp [handleSubmit, hok]
  · intro h e he rex
    have herr : buildRecord s.formData t =
        Except.error ValidationError.missingMandatoryFields :=
      (buildRecord_validation_iff s.formData t).mpr h
    simp [handleSubmit, herr] at he
    simp [he]

/-- Concrete instantiation of `handleSubmit_callback_once`: a filled-in
form at time `7` emits the creation event once, before the dialog-close
event. -/
theorem handleSubmit_callback_once_witness :
    (let s : DialogState :=
      { isOpen := true, isSubmitting := false,
        formData :=
          { summary := "S", rootCause := "R", correctionAction := "",
            preventiveAction := "", lessonsLearned := "",
            recommendations := "", impact := Impact.medium,
            category := RexCategory.technical } }
     ∃ rex, buildRecord s.formData 7 = Except.ok rex
       ∧ (handleSubmit true s 7).2.countP isRexCreatedEvent = 1
       ∧ ∃ i j : Nat, i < j
           ∧ (handleSubmit true s 7).2[i]? = some (SubmitEvent.rexCreated rex)
           ∧ (handleSubmit true s 7).2[j]? = some SubmitEvent.dialogClosed) :=
  (handleSubmit_callback_once _ 7).1 (by decide)

end RexIntegration
